import Mathlib

/-!
Verification of a UDP hole-punching rendezvous system consisting of a
signaling server (src/server.py) and a peer client (src/client.py).

The embedding makes Python-level semantics explicit: JSON values are an
inductive type; truthiness, the isinstance test, dict operations and the
points where the code raises an uncaught exception are modelled directly.
Sockets are represented by numeric connection identifiers, and network
writes by an explicit event list.
-/

/-- A decoded JSON value, as produced by json.loads. -/
inductive Json where
  | null
  | bool (b : Bool)
  | num (n : Int)
  | str (s : String)
  | arr (elts : List Json)
  | obj (fields : List (String × Json))

mutual

/-- Structural equality of decoded JSON values (Python ==). -/
def Json.beq : Json → Json → Bool
  | .null, .null => true
  | .bool a, .bool b => a == b
  | .num a, .num b => a == b
  | .str a, .str b => a == b
  | .arr a, .arr b => Json.arrBeq a b
  | .obj a, .obj b => Json.objBeq a b
  | _, _ => false

/-- Elementwise equality of JSON arrays. -/
def Json.arrBeq : List Json → List Json → Bool
  | [], [] => true
  | a :: as, b :: bs => Json.beq a b && Json.arrBeq as bs
  | _, _ => false

/-- Fieldwise equality of JSON objects. -/
def Json.objBeq : List (String × Json) → List (String × Json) → Bool
  | [], [] => true
  | (k, v) :: as, (k2, v2) :: bs => k == k2 && Json.beq v v2 && Json.objBeq as bs
  | _, _ => false

end

/-- Python truthiness of a decoded JSON value, as used by `if not x`. -/
def pyTruthy : Json → Bool
  | .null => false
  | .bool b => b
  | .num n => !(n == 0)
  | .str s => !(s == "")
  | .arr l => !l.isEmpty
  | .obj l => !l.isEmpty

/-- Python isinstance(x, int) on a decoded JSON value: ints and bools
    satisfy it (bool is a subclass of int in Python). -/
def isinstance_int : Json → Bool
  | .num _ => true
  | .bool _ => true
  | _ => false

/-- Whether a decoded JSON value is hashable in Python, hence usable as a
    dict key: lists and dicts are not. -/
def pyHashable : Json → Bool
  | .arr _ => false
  | .obj _ => false
  | _ => true

/-- Python msg.get(k) on a decoded JSON object, conflating an absent key
    with a null value exactly as the Python code does (get returns None). -/
def dictGet (fields : List (String × Json)) (k : String) : Json :=
  match fields with
  | [] => .null
  | (k2, v) :: rest => if k == k2 then v else dictGet rest k

/-- One REGISTRY entry: REGISTRY[username] holds
    the connection socket, the peer address observed by the server, and the
    self-reported UDP port. -/
structure RegEntry where
  conn : Nat
  ip : String
  udp_port : Json

/-- The server REGISTRY: a finite map from username values to entries,
    represented as an association list with distinct keys. -/
abbrev Registry := List (Json × RegEntry)

/-- REGISTRY.get(k). -/
def regGet (reg : Registry) (k : Json) : Option RegEntry :=
  match reg with
  | [] => none
  | (k2, v) :: rest => if Json.beq k k2 then v else regGet rest k

/-- del REGISTRY[k] (removal of the unique binding of k, if any). -/
def regDel (reg : Registry) (k : Json) : Registry :=
  reg.filter (fun p => !(Json.beq k p.1))

/-- REGISTRY[k] = v: bind k to v, dropping any previous binding. -/
def regSet (reg : Registry) (k : Json) (v : RegEntry) : Registry :=
  (k, v) :: regDel reg k

/-- An outbound newline-delimited JSON record written by send_json. -/
inductive ServerMsg where
  | error (err : String)
  | registered (username : Json)
  | peer (peer_username : Json) (peer_ip : String) (peer_port : Json)

/-- An externally visible effect of the server: a send_json attempt on a
    connection, or closing a connection. -/
inductive Event where
  | send (conn : Nat) (msg : ServerMsg)
  | close (conn : Nat)

/-- Result of handling one decoded line inside handle_client: either the
    loop continues with an updated local username and registry, or an
    uncaught exception escapes the loop, ending this handler. At every
    escape point of the Python code the registry is unchanged, so the exn
    constructor carries the input registry. -/
inductive StepResult where
  | ok (username : Json) (reg : Registry) (events : List Event)
  | exn (username : Json) (reg : Registry) (events : List Event)

/-- The registry after a step. -/
def StepResult.registry : StepResult → Registry
  | .ok _ r _ => r
  | .exn _ r _ => r

/-- The handler-local username variable after a step. -/
def StepResult.username : StepResult → Json
  | .ok u _ _ => u
  | .exn u _ _ => u

/-- The events emitted during a step. -/
def StepResult.events : StepResult → List Event
  | .ok _ _ e => e
  | .exn _ _ e => e

/-- One iteration of the line-processing loop of handle_client for
    connection conn whose observed peer address is addrIp: username is the
    current handler-local variable (null while no register request was
    seen), reg the shared REGISTRY, and line the json.loads result of one
    newline-delimited record (none models a JSONDecodeError). The
    byte-level decode stage, including the undecodable-line path that
    raises an uncaught UnicodeDecodeError, is modelled on top of this
    dispatch by LineDecode and handle_client_line_raw below.
    Exception points of the source: msg.get on a decoded non-object raises
    AttributeError; dict operations on an unhashable key raise TypeError;
    and in the connect branch, when the target is registered but the
    requester username has no registry entry, subscripting None in
    me["ip"] raises TypeError. -/
def handle_client_line (conn : Nat) (addrIp : String) (username : Json)
    (reg : Registry) (line : Option Json) : StepResult :=
  match line with
  | none => .ok username reg [.send conn (.error "bad_json")]
  | some msg =>
    match msg with
    | .obj fields =>
      let act := dictGet fields "action"
      if Json.beq act (.str "register") then
        let username2 := dictGet fields "username"
        let udp_port := dictGet fields "udp_port"
        if !(pyTruthy username2) || !(isinstance_int udp_port) then
          .ok username2 reg [.send conn (.error "missing_fields")]
        else if !(pyHashable username2) then
          .exn username2 reg []
        else
          match regGet reg username2 with
          | some old =>
            .ok username2 (regSet reg username2 ⟨conn, addrIp, udp_port⟩)
              [.close old.conn, .send conn (.registered username2)]
          | none =>
            .ok username2 (regSet reg username2 ⟨conn, addrIp, udp_port⟩)
              [.send conn (.registered username2)]
      else if Json.beq act (.str "connect") then
        if !(pyTruthy username) then
          .ok username reg [.send conn (.error "not_registered")]
        else
          let target := dictGet fields "target"
          if !(pyTruthy target) then
            .ok username reg [.send conn (.error "missing_target")]
          else if !(pyHashable username) || !(pyHashable target) then
            .exn username reg []
          else
            match regGet reg target with
            | none => .ok username reg [.send conn (.error "target_not_online")]
            | some other =>
              match regGet reg username with
              | none => .exn username reg []
              | some me =>
                .ok username reg
                  [.send me.conn (.peer target other.ip other.udp_port),
                   .send other.conn (.peer username me.ip me.udp_port)]
      else
        .ok username reg [.send conn (.error "unknown_action")]
    | _ => .exn username reg []

/-- handle_disconnect(username): if the username is in the REGISTRY, close
    the stored connection and delete the entry. Returns none when the
    username value is unhashable (the membership test raises TypeError);
    otherwise the new registry and the emitted events. -/
def handle_disconnect (username : Json) (reg : Registry) :
    Option (Registry × List Event) :=
  if !(pyHashable username) then none
  else
    match regGet reg username with
    | some e => some (regDel reg username, [.close e.conn])
    | none => some (reg, [])

/-- Outcome of decoding one raw line at the head of the processing loop:
    the source runs json.loads(line.decode()). A line that is valid UTF-8
    and valid JSON decodes to a value; a UTF-8 line that is not valid JSON
    raises JSONDecodeError, which the handler catches; a line that is not
    valid UTF-8 (such as the bytes ff fe) makes line.decode() raise
    UnicodeDecodeError, which the except clause for JSONDecodeError does
    not catch. -/
inductive LineDecode where
  | decoded (msg : Json)
  | json_error
  | unicode_error

/-- One iteration of the line-processing loop including the decode stage:
    a decoded value or a JSONDecodeError is handled by the dispatch of
    handle_client_line, while an undecodable line raises an uncaught
    UnicodeDecodeError, ending the handler with no response and the
    registry unchanged there (the exit cleanup then runs
    handle_disconnect). -/
def handle_client_line_raw (conn : Nat) (addrIp : String) (username : Json)
    (reg : Registry) (line : LineDecode) : StepResult :=
  match line with
  | .decoded msg => handle_client_line conn addrIp username reg (some msg)
  | .json_error => handle_client_line conn addrIp username reg none
  | .unicode_error => .exn username reg []

/-- The decoded register record sent by connect_signaling. -/
def registerMsg (u : String) (p : Int) : Json :=
  .obj [("action", .str "register"), ("username", .str u), ("udp_port", .num p)]

/-- The decoded connect record sent by request_connect. -/
def connectMsg (t : String) : Json :=
  .obj [("action", .str "connect"), ("target", .str t)]

/-- A registry-affecting step performed by some connection handler: one
    processed line, or the cleanup run when a handler exits. -/
inductive ServerOp where
  | line (conn : Nat) (addrIp : String) (username : Json) (msg : Option Json)
  | disconnect (username : Json)

/-- The registry after one ServerOp. -/
def applyOp (reg : Registry) : ServerOp → Registry
  | .line conn addrIp username msg =>
    (handle_client_line conn addrIp username reg msg).registry
  | .disconnect username =>
    match handle_disconnect username reg with
    | some (r, _) => r
    | none => reg

/-- The registry after a sequence of ServerOps. -/
def applyOps (reg : Registry) (ops : List ServerOp) : Registry :=
  ops.foldl applyOp reg

/-- No two registry bindings carry the same identity. -/
def distinctIdents (reg : Registry) : Prop :=
  reg.Pairwise (fun p q => Json.beq p.1 q.1 = false)

/-! ## Client side -/

/-- Number of hole-punch probe datagrams (client.py PUNCH_COUNT). -/
def PUNCH_COUNT : Nat := 12

/-- Interval between probes, in milliseconds (client.py PUNCH_INTERVAL,
    0.1 seconds). -/
def PUNCH_INTERVAL_MS : Nat := 100

/-- The i-th hello probe payload built inside the punch thread. -/
def helloPacket (username : String) (i : Nat) : Json :=
  .obj [("type", .str "hello"), ("from", .str username), ("seq", .num i)]

/-- A datagram sent on the client UDP socket: destination and payload. -/
structure SentDatagram where
  dest_ip : String
  dest_port : Int
  payload : Json

/-- start_hole_punch: when the stored peer endpoint is truthy, the spawned
    punch thread sends PUNCH_COUNT hello probes, seq 0 .. PUNCH_COUNT - 1,
    one every PUNCH_INTERVAL, to that endpoint; with a falsy endpoint the
    method returns without sending. Modelled as the list of datagrams the
    punch thread sends over its lifetime. -/
def start_hole_punch (username : String) (peer_ip : Option String)
    (peer_port : Option Int) : List SentDatagram :=
  match peer_ip, peer_port with
  | some ip, some port =>
    if ip == "" || port == 0 then []
    else (List.range PUNCH_COUNT).map (fun i => ⟨ip, port, helloPacket username i⟩)
  | _, _ => []

/-- What one iteration of udp_receiver does with a received datagram. -/
inductive UdpStep where
  | logged_non_json
  | chat_message (sender recipient text : Json)
  | hello_probe
  | other_surfaced (msg : Json)
  | exn

/-- The datagram-handling part of one udp_receiver iteration: the input is
    the json.loads result of the received bytes (none models a
    JSONDecodeError, which is caught, printed and skipped). On any decoded
    non-object value, msg.get raises AttributeError, which nothing in
    udp_receiver catches, so the receive loop terminates: the exn case. -/
def udp_receiver_step (datagram : Option Json) : UdpStep :=
  match datagram with
  | none => .logged_non_json
  | some msg =>
    match msg with
    | .obj fields =>
      let mtype := dictGet fields "type"
      if Json.beq mtype (.str "chat") then
        .chat_message (dictGet fields "from") (dictGet fields "to")
          (dictGet fields "msg")
      else if Json.beq mtype (.str "hello") then
        .hello_probe
      else
        .other_surfaced (.obj fields)
    | _ => .exn

/-! ## Concrete scenario states -/

/-- Registry after alice registers from 1.2.3.4 with udp_port 40000 on
    connection 1 and bob from 5.6.7.8 with udp_port 50000 on connection 2. -/
def regAB : Registry :=
  applyOps [] [.line 1 "1.2.3.4" .null (some (registerMsg "alice" 40000)),
               .line 2 "5.6.7.8" .null (some (registerMsg "bob" 50000))]

/-- Registry after alice registers from 1.2.3.4 with udp_port 40000 on
    connection 1. -/
def regAliceOnly : Registry :=
  applyOps [] [.line 1 "1.2.3.4" .null (some (registerMsg "alice" 40000))]

/-- Registry after alice registers on connection 1 and then registers again
    on connection 2 from 9.9.9.9: the entry now points at connection 2. -/
def regAliceSuperseded : Registry :=
  applyOps [] [.line 1 "1.2.3.4" .null (some (registerMsg "alice" 40000)),
               .line 2 "9.9.9.9" .null (some (registerMsg "alice" 41000))]

/-- Registry after bob registers, alice registers on connection 1, a second
    alice registration on connection 3 supersedes it, and the handler of
    connection 3 exits, removing the alice entry: bob remains registered
    while the handler of connection 1 still has username set to alice. -/
def regC4 : Registry :=
  applyOps [] [.line 2 "5.6.7.8" .null (some (registerMsg "bob" 50000)),
               .line 1 "1.2.3.4" .null (some (registerMsg "alice" 40000)),
               .line 3 "9.9.9.9" .null (some (registerMsg "alice" 41000)),
               .disconnect (.str "alice")]

/-- Registry after alice and bob register and bob then disconnects. -/
def regAfterBobLeft : Registry :=
  applyOps [] [.line 1 "1.2.3.4" .null (some (registerMsg "alice" 40000)),
               .line 2 "5.6.7.8" .null (some (registerMsg "bob" 50000)),
               .disconnect (.str "bob")]

/-! ## Registry map lemmas -/

lemma regGet_regDel (reg : Registry) (k : Json) : regGet (regDel reg k) k = none := by
  induction reg with
  | nil => rfl
  | cons p rest ih =>
    obtain ⟨k2, v⟩ := p
    by_cases h : Json.beq k k2 = true
    · simpa [regDel, List.filter_cons, h] using ih
    · simp only [Bool.not_eq_true] at h
      simpa [regDel, List.filter_cons, regGet, h] using ih

lemma regGet_regSet_self (reg : Registry) (s : String) (v : RegEntry) :
    regGet (regSet reg (Json.str s) v) (Json.str s) = some v := by
  simp [regSet, regGet, Json.beq]

lemma distinctIdents_regDel (reg : Registry) (k : Json) (h : distinctIdents reg) :
    distinctIdents (regDel reg k) :=
  List.Pairwise.sublist (List.filter_sublist reg) h

lemma distinctIdents_regSet (reg : Registry) (k : Json) (v : RegEntry)
    (h : distinctIdents reg) : distinctIdents (regSet reg k v) := by
  refine List.Pairwise.cons ?_ (distinctIdents_regDel reg k h)
  intro q hq
  have hp := List.of_mem_filter hq
  simpa using hp

lemma distinctIdents_handle_client_line (conn : Nat) (addrIp : String)
    (username : Json) (reg : Registry) (line : Option Json)
    (h : distinctIdents reg) :
    distinctIdents (handle_client_line conn addrIp username reg line).registry := by
  unfold handle_client_line
  rcases line with _ | msg
  · exact h
  · rcases msg with _ | b | n | s | elts | fields
    · exact h
    · exact h
    · exact h
    · exact h
    · exact h
    · dsimp only
      repeat' split
      all_goals first
        | exact h
        | exact distinctIdents_regSet _ _ _ h

lemma distinctIdents_applyOp (reg : Registry) (op : ServerOp)
    (h : distinctIdents reg) : distinctIdents (applyOp reg op) := by
  rcases op with ⟨conn, addrIp, username, msg⟩ | u
  · exact distinctIdents_handle_client_line conn addrIp username reg msg h
  · dsimp only [applyOp]
    cases hd : handle_disconnect u reg with
    | none => exact h
    | some p =>
      obtain ⟨r, evs⟩ := p
      dsimp only
      unfold handle_disconnect at hd
      split at hd
      · simp at hd
      · split at hd
        · simp only [Option.some.injEq, Prod.mk.injEq] at hd
          rw [← hd.1]
          exact distinctIdents_regDel _ _ h
        · simp only [Option.some.injEq, Prod.mk.injEq] at hd
          rw [← hd.1]
          exact h

lemma distinctIdents_applyOps (ops : List ServerOp) (reg : Registry)
    (h : distinctIdents reg) : distinctIdents (applyOps reg ops) := by
  induction ops generalizing reg with
  | nil => exact h
  | cons op rest ih => exact ih (applyOp reg op) (distinctIdents_applyOp reg op h)

/-! ## Claims -/

/-- Claim C1, counterexample. The claim states that the exit-time cleanup of a
    connection removes the Registry entry for its username only if the entry
    still points at that connection, leaving a superseding registration in
    place. In the code, handle_disconnect does not receive or consult the
    exiting connection at all: after alice registered on connection 1 and a
    superseding registration on connection 2 replaced the entry, the cleanup
    run on behalf of connection 1 finds the entry pointing at connection 2,
    removes it anyway, and even closes connection 2. -/
theorem c1_counterexample :
    regGet regAliceSuperseded (Json.str "alice") =
      some ⟨2, "9.9.9.9", Json.num 41000⟩ ∧
    handle_disconnect (Json.str "alice") regAliceSuperseded =
      some ([], [.close 2]) :=
  ⟨rfl, rfl⟩

/-- Claim C1, amended. When a handler exits with a string username tracked,
    handle_disconnect removes the Registry entry for that username
    unconditionally whenever one exists, first closing the connection stored
    in the entry, regardless of whether that entry still belongs to the
    exiting connection: a superseding registration is clobbered by the late
    cleanup of the old connection. -/
theorem c1_late_cleanup_removes_entry (s : String) (reg : Registry)
    (e : RegEntry) (h : regGet reg (Json.str s) = some e) :
    handle_disconnect (Json.str s) reg =
      some (regDel reg (Json.str s), [.close e.conn]) ∧
    regGet (regDel reg (Json.str s)) (Json.str s) = none := by
  constructor
  · simp [handle_disconnect, pyHashable, h]
  · exact regGet_regDel reg (Json.str s)

/-- Claim C1, witness for the amended claim: in the superseded scenario the
    cleanup triggered by the exit of connection 1 deletes the entry that
    points at connection 2 and closes connection 2. -/
theorem c1_late_cleanup_witness :
    handle_disconnect (Json.str "alice") regAliceSuperseded =
      some (regDel regAliceSuperseded (Json.str "alice"), [.close 2]) ∧
    regGet (regDel regAliceSuperseded (Json.str "alice")) (Json.str "alice") =
      none :=
  c1_late_cleanup_removes_entry "alice" regAliceSuperseded
    ⟨2, "9.9.9.9", Json.num 41000⟩ rfl

/-- Claim C2: when both the requester and the target are registered, a
    connect request emits exactly two peer records, both computed from the
    one registry value read inside the single lock acquisition: the
    requester connection receives the target username with the target entry
    address and self-reported port, and the target connection receives the
    mirrored record with the requester data; the registry is unchanged. -/
theorem c2_pairing_consistent_snapshot (conn : Nat) (addrIp u t : String)
    (reg : Registry) (me other : RegEntry) (hu : u ≠ "") (ht : t ≠ "")
    (hme : regGet reg (Json.str u) = some me)
    (hot : regGet reg (Json.str t) = some other) :
    handle_client_line conn addrIp (Json.str u) reg (some (connectMsg t)) =
      .ok (Json.str u) reg
        [.send me.conn (.peer (Json.str t) other.ip other.udp_port),
         .send other.conn (.peer (Json.str u) me.ip me.udp_port)] := by
  have hu2 : (u == "") = false := by simpa using hu
  have ht2 : (t == "") = false := by simpa using ht
  simp [handle_client_line, connectMsg, dictGet, Json.beq, pyTruthy, pyHashable,
        hu2, ht2, hme, hot]

/-- Claim C2, witness: after alice registers with udp_port 40000 from
    1.2.3.4 and bob with udp_port 50000 from 5.6.7.8, a connect with target
    bob from alice sends alice the record peer bob 5.6.7.8 50000 and bob the
    record peer alice 1.2.3.4 40000. -/
theorem c2_pairing_witness :
    handle_client_line 1 "1.2.3.4" (Json.str "alice") regAB
        (some (connectMsg "bob")) =
      .ok (Json.str "alice") regAB
        [.send 1 (.peer (Json.str "bob") "5.6.7.8" (Json.num 50000)),
         .send 2 (.peer (Json.str "alice") "1.2.3.4" (Json.num 40000))] :=
  c2_pairing_consistent_snapshot 1 "1.2.3.4" "alice" "bob" regAB
    ⟨1, "1.2.3.4", Json.num 40000⟩ ⟨2, "5.6.7.8", Json.num 50000⟩
    (by decide) (by decide) rfl rfl

/-- Claim C3: first, for every sequence of handler line steps and disconnect
    cleanups starting from the empty registry, the registry never holds two
    bindings for the same identity; second, a register request naming an
    already-present identity replaces the existing entry, and the emitted
    events close the prior connection before the registered response is
    sent. -/
theorem c3_registry_supersession :
    (∀ ops : List ServerOp, distinctIdents (applyOps [] ops)) ∧
    (∀ (conn : Nat) (addrIp s : String) (u0 : Json) (reg : Registry)
       (p : Int) (old : RegEntry), s ≠ "" →
       regGet reg (Json.str s) = some old →
       handle_client_line conn addrIp u0 reg (some (registerMsg s p)) =
         .ok (Json.str s) (regSet reg (Json.str s) ⟨conn, addrIp, Json.num p⟩)
           [.close old.conn, .send conn (.registered (Json.str s))]) := by
  constructor
  · intro ops
    exact distinctIdents_applyOps ops [] List.Pairwise.nil
  · intro conn addrIp s u0 reg p old hs hold
    have hs2 : (s == "") = false := by simpa using hs
    simp [handle_client_line, registerMsg, dictGet, Json.beq, pyTruthy,
          pyHashable, isinstance_int, hs2, hold]

/-- Claim C3, witness: re-registering alice on connection 2 over the entry
    of connection 1 first closes connection 1, then stores the new entry and
    confirms the registration. -/
theorem c3_supersession_witness :
    (∀ ops : List ServerOp, distinctIdents (applyOps [] ops)) ∧
    handle_client_line 2 "9.9.9.9" Json.null
        (regSet [] (Json.str "alice") ⟨1, "1.2.3.4", Json.num 40000⟩)
        (some (registerMsg "alice" 41000)) =
      .ok (Json.str "alice")
        (regSet (regSet [] (Json.str "alice") ⟨1, "1.2.3.4", Json.num 40000⟩)
          (Json.str "alice") ⟨2, "9.9.9.9", Json.num 41000⟩)
        [.close 1, .send 2 (.registered (Json.str "alice"))] :=
  ⟨c3_registry_supersession.1,
   c3_registry_supersession.2 2 "9.9.9.9" "alice" Json.null
     (regSet [] (Json.str "alice") ⟨1, "1.2.3.4", Json.num 40000⟩) 41000
     ⟨1, "1.2.3.4", Json.num 40000⟩ (by decide) rfl⟩

/-- Claim C4, code evaluation. The claim states that a connect request whose
    requester has no live Registration fails with a not_registered error and
    no peer record is sent. The code tests only the handler-local username
    variable: in regC4, where the alice entry was removed by the exit of the
    superseding connection while bob is registered, the connect from the
    stale handler of connection 1 with username alice reaches me["ip"] with
    me = None and raises TypeError, ending the handler without any response;
    the not_registered error is produced only when the local variable was
    never set by a register request. -/
theorem c4_code_evaluation :
    regGet regC4 (Json.str "alice") = none ∧
    regGet regC4 (Json.str "bob") = some ⟨2, "5.6.7.8", Json.num 50000⟩ ∧
    handle_client_line 1 "1.2.3.4" (Json.str "alice") regC4
        (some (connectMsg "bob")) =
      .exn (Json.str "alice") regC4 [] ∧
    handle_client_line 1 "1.2.3.4" Json.null regC4 (some (connectMsg "bob")) =
      .ok Json.null regC4 [.send 1 (.error "not_registered")] :=
  ⟨rfl, rfl, rfl, rfl⟩

/-- Claim C5, code evaluation. The claim states that no inbound datagram
    content can terminate the receive loop. The code catches only
    JSONDecodeError around json.loads: a datagram whose bytes decode to a
    valid JSON value that is not an object, such as the number 42 or an
    empty array, makes msg.get raise AttributeError, which terminates the
    receive loop; a decode failure, by contrast, is logged and skipped. -/
theorem c5_code_evaluation :
    udp_receiver_step (some (Json.num 42)) = UdpStep.exn ∧
    udp_receiver_step (some (Json.arr [])) = UdpStep.exn ∧
    udp_receiver_step none = UdpStep.logged_non_json :=
  ⟨rfl, rfl, rfl⟩

/-- Claim C6, code evaluation. The claim states that every inbound line
    that is not valid JSON yields exactly one bad_json error with the
    connection kept open and the registry unchanged. The except clause at
    the decode site catches only JSONDecodeError: a line that is not valid
    UTF-8 raises UnicodeDecodeError from line.decode(), which escapes the
    loop, so the handler exits with no response and the exit cleanup then
    removes the tracked username from the registry and closes the
    connection; only a UTF-8 line that fails JSON parsing takes the
    bad_json path, for every handler state. -/
theorem c6_code_evaluation :
    handle_client_line_raw 1 "1.2.3.4" (Json.str "alice") regAliceOnly
        .unicode_error =
      .exn (Json.str "alice") regAliceOnly [] ∧
    handle_disconnect (Json.str "alice") regAliceOnly =
      some ([], [.close 1]) ∧
    (∀ (conn : Nat) (addrIp : String) (username : Json) (reg : Registry),
      handle_client_line_raw conn addrIp username reg .json_error =
        .ok username reg [.send conn (.error "bad_json")]) :=
  ⟨rfl, rfl, fun _ _ _ _ => rfl⟩

/-- Claim C7: a connect request from a registered requester naming a target
    with no registry entry yields exactly one target_not_online error to the
    requester connection and no peer record to anyone, with the registry
    unchanged. -/
theorem c7_target_not_online (conn : Nat) (addrIp u t : String)
    (reg : Registry) (me : RegEntry) (hu : u ≠ "") (ht : t ≠ "")
    (_hme : regGet reg (Json.str u) = some me)
    (hot : regGet reg (Json.str t) = none) :
    handle_client_line conn addrIp (Json.str u) reg (some (connectMsg t)) =
      .ok (Json.str u) reg [.send conn (.error "target_not_online")] := by
  have hu2 : (u == "") = false := by simpa using hu
  have ht2 : (t == "") = false := by simpa using ht
  simp [handle_client_line, connectMsg, dictGet, Json.beq, pyTruthy,
        pyHashable, hu2, ht2, hot]

/-- Claim C7, witness: after bob disconnects, a connect with target bob from
    the registered alice yields the target_not_online error. -/
theorem c7_target_not_online_witness :
    handle_client_line 1 "1.2.3.4" (Json.str "alice") regAfterBobLeft
        (some (connectMsg "bob")) =
      .ok (Json.str "alice") regAfterBobLeft
        [.send 1 (.error "target_not_online")] :=
  c7_target_not_online 1 "1.2.3.4" "alice" "bob" regAfterBobLeft
    ⟨1, "1.2.3.4", Json.num 40000⟩ (by decide) (by decide) rfl rfl

/-- Claim C8: with a truthy recorded peer endpoint, the punch burst sends
    exactly PUNCH_COUNT probe datagrams to that endpoint, the i-th being the
    JSON object with type hello, from the own username and seq i for i from
    0 to PUNCH_COUNT - 1, one per PUNCH_INTERVAL; the defaults are 12 probes
    100 milliseconds apart. The burst is modelled as the datagram list of
    the spawned punch thread, whose start returns to the caller. -/
theorem c8_probe_burst (u ip : String) (port : Int) (hip : ip ≠ "")
    (hport : port ≠ 0) :
    start_hole_punch u (some ip) (some port) =
      [⟨ip, port, helloPacket u 0⟩, ⟨ip, port, helloPacket u 1⟩,
       ⟨ip, port, helloPacket u 2⟩, ⟨ip, port, helloPacket u 3⟩,
       ⟨ip, port, helloPacket u 4⟩, ⟨ip, port, helloPacket u 5⟩,
       ⟨ip, port, helloPacket u 6⟩, ⟨ip, port, helloPacket u 7⟩,
       ⟨ip, port, helloPacket u 8⟩, ⟨ip, port, helloPacket u 9⟩,
       ⟨ip, port, helloPacket u 10⟩, ⟨ip, port, helloPacket u 11⟩] ∧
    PUNCH_COUNT = 12 ∧ PUNCH_INTERVAL_MS = 100 := by
  have h1 : (ip == "") = false := by simpa using hip
  have h2 : (port == 0) = false := by simpa using hport
  refine ⟨?_, rfl, rfl⟩
  simp only [start_hole_punch, h1, h2, Bool.or_self, Bool.false_eq_true,
    if_false]
  rfl

/-- Claim C8, witness: the burst for alice toward 5.6.7.8 port 50000 is the
    twelve hello probes with seq 0 to 11. -/
theorem c8_probe_burst_witness :
    start_hole_punch "alice" (some "5.6.7.8") (some 50000) =
      [⟨"5.6.7.8", 50000, helloPacket "alice" 0⟩,
       ⟨"5.6.7.8", 50000, helloPacket "alice" 1⟩,
       ⟨"5.6.7.8", 50000, helloPacket "alice" 2⟩,
       ⟨"5.6.7.8", 50000, helloPacket "alice" 3⟩,
       ⟨"5.6.7.8", 50000, helloPacket "alice" 4⟩,
       ⟨"5.6.7.8", 50000, helloPacket "alice" 5⟩,
       ⟨"5.6.7.8", 50000, helloPacket "alice" 6⟩,
       ⟨"5.6.7.8", 50000, helloPacket "alice" 7⟩,
       ⟨"5.6.7.8", 50000, helloPacket "alice" 8⟩,
       ⟨"5.6.7.8", 50000, helloPacket "alice" 9⟩,
       ⟨"5.6.7.8", 50000, helloPacket "alice" 10⟩,
       ⟨"5.6.7.8", 50000, helloPacket "alice" 11⟩] ∧
    PUNCH_COUNT = 12 ∧ PUNCH_INTERVAL_MS = 100 :=
  c8_probe_burst "alice" "5.6.7.8" 50000 (by decide) (by decide)

/-- Claim C9: a register record whose username field is missing or falsy, or
    whose udp_port field fails the isinstance int test, yields exactly one
    missing_fields error and leaves the registry untouched; a register with
    a nonempty string username and integer udp_port stores an entry holding
    the connection, the address observed by the server (the addrIp argument,
    never any field of the request, which may carry a decoy address) and the
    self-reported udp_port, and the last emitted event is the registered
    response. -/
theorem c9_register_validation :
    (∀ (conn : Nat) (addrIp : String) (u0 : Json) (reg : Registry)
       (fields : List (String × Json)),
       dictGet fields "action" = Json.str "register" →
       (pyTruthy (dictGet fields "username") = false ∨
        isinstance_int (dictGet fields "udp_port") = false) →
       handle_client_line conn addrIp u0 reg (some (Json.obj fields)) =
         .ok (dictGet fields "username") reg
           [.send conn (.error "missing_fields")]) ∧
    (∀ (conn : Nat) (addrIp : String) (u0 : Json) (reg : Registry)
       (s : String) (p : Int) (fields : List (String × Json)), s ≠ "" →
       dictGet fields "action" = Json.str "register" →
       dictGet fields "username" = Json.str s →
       dictGet fields "udp_port" = Json.num p →
       ∃ evs,
         handle_client_line conn addrIp u0 reg (some (Json.obj fields)) =
           .ok (Json.str s)
             (regSet reg (Json.str s) ⟨conn, addrIp, Json.num p⟩) evs ∧
         evs.getLast? = some (.send conn (.registered (Json.str s))) ∧
         regGet (regSet reg (Json.str s) ⟨conn, addrIp, Json.num p⟩)
             (Json.str s) =
           some ⟨conn, addrIp, Json.num p⟩) := by
  constructor
  · intro conn addrIp u0 reg fields hact hbad
    rcases hbad with hb | hb <;>
      simp [handle_client_line, hact, Json.beq, hb]
  · intro conn addrIp u0 reg s p fields hs hact huser hport
    have hs2 : (s == "") = false := by simpa using hs
    cases hold : regGet reg (Json.str s) with
    | some old =>
      refine ⟨[.close old.conn, .send conn (.registered (Json.str s))], ?_,
        rfl, regGet_regSet_self reg s _⟩
      simp [handle_client_line, hact, huser, hport, Json.beq, pyTruthy,
            pyHashable, isinstance_int, hs2, hold]
    | none =>
      refine ⟨[.send conn (.registered (Json.str s))], ?_, rfl,
        regGet_regSet_self reg s _⟩
      simp [handle_client_line, hact, huser, hport, Json.beq, pyTruthy,
            pyHashable, isinstance_int, hs2, hold]

/-- Claim C9, witness: a register for alice without udp_port yields
    missing_fields and no registry change; a register for alice with
    udp_port 40000 carrying a decoy ip field 6.6.6.6, handled on the
    connection observed at 1.2.3.4, stores the entry with address 1.2.3.4
    and port 40000 and ends with the registered response. -/
theorem c9_register_witness :
    (handle_client_line 1 "1.2.3.4" Json.null []
        (some (Json.obj [("action", Json.str "register"),
                         ("username", Json.str "alice")])) =
      .ok (Json.str "alice") [] [.send 1 (.error "missing_fields")]) ∧
    (∃ evs,
      handle_client_line 1 "1.2.3.4" Json.null []
          (some (Json.obj [("action", Json.str "register"),
                           ("username", Json.str "alice"),
                           ("udp_port", Json.num 40000),
                           ("ip", Json.str "6.6.6.6")])) =
        .ok (Json.str "alice")
          (regSet [] (Json.str "alice") ⟨1, "1.2.3.4", Json.num 40000⟩) evs ∧
      evs.getLast? = some (.send 1 (.registered (Json.str "alice"))) ∧
      regGet (regSet [] (Json.str "alice") ⟨1, "1.2.3.4", Json.num 40000⟩)
          (Json.str "alice") =
        some ⟨1, "1.2.3.4", Json.num 40000⟩) :=
  ⟨c9_register_validation.1 1 "1.2.3.4" Json.null [] _ rfl (Or.inr rfl),
   c9_register_validation.2 1 "1.2.3.4" Json.null [] "alice" 40000 _
     (by decide) rfl rfl rfl⟩

/-- Claim C10: after any register record, whatever the validation outcome,
    the handler-local username equals the username field of that record,
    with a missing field leaving the Python None value: in particular a
    failed register replaces a previously registered tracked username,
    which is the identity later connect requests act as and the entry
    cleaned up on disconnect. -/
theorem c10_tracked_username (conn : Nat) (addrIp : String) (u0 : Json)
    (reg : Registry) (fields : List (String × Json))
    (hact : dictGet fields "action" = Json.str "register") :
    (handle_client_line conn addrIp u0 reg (some (Json.obj fields))).username =
      dictGet fields "username" := by
  simp only [handle_client_line, hact]
  rw [show Json.beq (Json.str "register") (Json.str "register") = true from rfl]
  simp only [if_true]
  repeat' split
  all_goals rfl

/-- Claim C10, witness: on a connection whose handler tracks alice after a
    successful registration, a register for mallory that fails validation
    (missing udp_port) still replaces the tracked username with mallory. -/
theorem c10_tracked_username_witness :
    (handle_client_line 1 "1.2.3.4" (Json.str "alice") []
        (some (Json.obj [("action", Json.str "register"),
                         ("username", Json.str "mallory")]))).username =
      Json.str "mallory" :=
  c10_tracked_username 1 "1.2.3.4" (Json.str "alice") [] _ rfl
